import Mathlib

/-!
Verification of the autostereogram core of the magic-eye-anything repository.

The embedding below follows the source:
* `PixelGrid` with `get`/`set` is `src/PixelGrid.ts`: a raster backed by a
  flat interleaved RGBA buffer, `get` reading `data[(y*width+x)*4 + k] ?? fallback`
  and `set` writing the four samples through a `Uint8ClampedArray`.
* `generateAutostereogram` is the synthesis loop of `src/main.ts`
  (lines 134-146): row-major, left-to-right, seeding the first
  `minDisparity` columns from the pattern and copying every later column
  from the output row being built.
* `AppSyncState`/`requestStep` model the `isProcessing` reentrancy guard at
  the entry of `generateAutostereogram` (lines 57-61 and 159).

JavaScript numbers are modelled by `Nat`/`Int` where the source computes
integers, and by `ℚ` where it computes a real-valued product before
`Math.floor`; buffer reads that fall off the typed array (`undefined`) are
modelled by `Option`.
-/

/-- RGBA sample quadruple as produced by `PixelGrid.get`. The backing store
is a `Uint8ClampedArray`, so stored samples are clamped to 255; samples are
modelled as natural numbers. -/
structure Pixel where
  r : Nat
  g : Nat
  b : Nat
  a : Nat
  deriving DecidableEq, Repr

/-- Raster with a flat interleaved RGBA buffer, as in `src/PixelGrid.ts`.
The `ImageData` invariant `data.length = width*height*4` is not part of the
structure, mirroring the class, and appears as a hypothesis where needed. -/
structure PixelGrid where
  width : Nat
  height : Nat
  data : List Nat
  deriving DecidableEq, Repr

/-- Read of `data[i]` on the backing typed array: `none` models the
`undefined` produced by a negative or past-the-end index. -/
def PixelGrid.getAt (g : PixelGrid) (i : Int) : Option Nat :=
  if i < 0 then none else g.data[i.toNat]?

/-- The `get(x, y)` method: index `(y*width+x)*4`, each channel read through
the JavaScript nullish fallback `?? 0x00` (alpha: `?? 0xff`). There is no
bounds check on the coordinates. -/
def PixelGrid.get (g : PixelGrid) (x y : Int) : Pixel :=
  let index := (y * g.width + x) * 4
  { r := (g.getAt index).getD 0x00
    g := (g.getAt (index + 1)).getD 0x00
    b := (g.getAt (index + 2)).getD 0x00
    a := (g.getAt (index + 3)).getD 0xff }

/-- Write of `data[i] = v` on the backing `Uint8ClampedArray`: values are
clamped to 255, writes at a negative or past-the-end index are silently
dropped (`List.set` is the identity past the end). -/
def PixelGrid.setAt (g : PixelGrid) (i : Int) (v : Nat) : PixelGrid :=
  if i < 0 then g else { g with data := g.data.set i.toNat (min v 255) }

/-- The `set(x, y, pixel)` method: four consecutive sample writes starting
at index `(y*width+x)*4`. There is no bounds check on the coordinates. -/
def PixelGrid.set (g : PixelGrid) (x y : Int) (p : Pixel) : PixelGrid :=
  let index := (y * g.width + x) * 4
  (((g.setAt index p.r).setAt (index + 1) p.g).setAt (index + 2) p.b).setAt (index + 3) p.a

/-- All samples of the buffer fit in a byte. `ImageData` guarantees this for
every grid the source constructs. -/
def PixelGrid.ByteSized (g : PixelGrid) : Prop :=
  ∀ v ∈ g.data, v ≤ 255

instance (g : PixelGrid) : Decidable g.ByteSized :=
  inferInstanceAs (Decidable (∀ v ∈ g.data, v ≤ 255))

/-- Remainder with the JavaScript sign convention for the percent operator:
the sign of the dividend. The synthesis loop only evaluates it with a
positive divisor (the seed branch guard `x < minDisparity` forces
`minDisparity ≥ 1` there). -/
def jsRem (a b : Int) : Int :=
  if 0 ≤ a then ((a.natAbs % b.natAbs : Nat) : Int) else -((a.natAbs % b.natAbs : Nat) : Int)

/-- Per-pixel disparity offset of `src/main.ts` lines 136-139:
`Math.floor((depth.get(x,y)[0] / 255) * (maxDisparity - minDisparity) * disparityScale)`.
The floating-point product is modelled by exact rational arithmetic. -/
def offsetOf (depth : PixelGrid) (minDisparity maxDisparity : Nat) (disparityScale : ℚ)
    (x y : Nat) : Int :=
  ⌊(((depth.get x y).r : ℚ) / 255) * ((maxDisparity : ℚ) - (minDisparity : ℚ)) * disparityScale⌋

/-- Body of the inner loop of `src/main.ts` lines 135-145: one pixel of the
output is written, from the pattern when `x < minDisparity` and from the
output row being built otherwise. -/
def synthPixel (depth pattern : PixelGrid) (minDisparity maxDisparity : Nat)
    (disparityScale : ℚ) (output : PixelGrid) (x y : Nat) : PixelGrid :=
  let offset := offsetOf depth minDisparity maxDisparity disparityScale x y
  if x < minDisparity then
    output.set x y (pattern.get (jsRem ((x : Int) + offset) (minDisparity : Int)) y)
  else
    output.set x y (output.get ((x : Int) + offset - (minDisparity : Int)) y)

/-- One iteration of the outer loop: the row `y`, columns left to right. -/
def synthRow (depth pattern : PixelGrid) (minDisparity maxDisparity : Nat)
    (disparityScale : ℚ) (width y : Nat) (output : PixelGrid) : PixelGrid :=
  (List.range width).foldl
    (fun o x => synthPixel depth pattern minDisparity maxDisparity disparityScale o x y) output

/-- The synthesis loop of `generateAutostereogram`, `src/main.ts` lines
134-146: rows top to bottom over the initial output canvas `output`. -/
def generateAutostereogram (depth pattern : PixelGrid) (minDisparity maxDisparity : Nat)
    (disparityScale : ℚ) (output : PixelGrid) : PixelGrid :=
  (List.range output.height).foldl
    (fun o y => synthRow depth pattern minDisparity maxDisparity disparityScale output.width y o)
    output

/-- State of the loop just before the pixel `(u, v)` is processed: all rows
before `v`, then the columns of row `v` left of `u`. -/
def synthState (depth pattern : PixelGrid) (minDisparity maxDisparity : Nat)
    (disparityScale : ℚ) (output : PixelGrid) (u v : Nat) : PixelGrid :=
  (List.range u).foldl
    (fun o x => synthPixel depth pattern minDisparity maxDisparity disparityScale o x v)
    ((List.range v).foldl
      (fun o y => synthRow depth pattern minDisparity maxDisparity disparityScale output.width y o)
      output)

/-- Synchronization-relevant application state read and written by
`generateAutostereogram`: whether a depth grid is loaded
(`appState.currentDepth !== null`) and whether a generation is in flight
(`appState.isProcessing`). `AppState` holds no queue of pending requests. -/
structure AppSyncState where
  hasDepth : Bool
  isProcessing : Bool
  deriving DecidableEq, Repr

/-- Entry guard of `generateAutostereogram` (`src/main.ts` lines 57-59):
the call proceeds only when a depth grid is loaded and no generation is in
flight. -/
def generateProceeds (s : AppSyncState) : Bool :=
  s.hasDepth && !s.isProcessing

/-- Effect of one `generateAutostereogram()` invocation on the
synchronization state, with the returned flag telling whether a generation
started: a guarded-out call returns immediately, leaving the state
unchanged; otherwise `isProcessing` is set (line 61). -/
def requestStep (s : AppSyncState) : AppSyncState × Bool :=
  if generateProceeds s then ({ s with isProcessing := true }, true) else (s, false)

/-- Completion of an in-flight generation: `appState.isProcessing = false`
at line 159. -/
def finishStep (s : AppSyncState) : AppSyncState :=
  { s with isProcessing := false }

/-- Clamping applied by a store into a `Uint8ClampedArray`, lifted to a
whole pixel. -/
def clampPixel (p : Pixel) : Pixel :=
  ⟨min p.r 255, min p.g 255, min p.b 255, min p.a 255⟩

/-- Pixel produced by `get` when every channel read falls off the buffer. -/
def opaqueBlack : Pixel :=
  ⟨0, 0, 0, 255⟩

/-- Shape facts preserved by the loop: dimensions, buffer length, and
byte-sized samples (relative to a reference grid). -/
def sameShape (o g : PixelGrid) : Prop :=
  o.width = g.width ∧ o.height = g.height ∧ o.data.length = g.data.length ∧
    (g.ByteSized → o.ByteSized)

/-- Concrete 20x1 depth grid with every sample 128, the depth field of the
concrete scenario of the specification. -/
def demoDepth128 : PixelGrid :=
  PixelGrid.mk 20 1 (List.replicate 80 128)

/-- Concrete 4x1 depth grid with every sample 0. -/
def demoDepth0 : PixelGrid :=
  PixelGrid.mk 4 1 (List.replicate 16 0)

/-- Concrete 2x1 pattern strip. -/
def demoPattern2 : PixelGrid :=
  PixelGrid.mk 2 1 [10, 20, 30, 40, 50, 60, 70, 80]

/-- Concrete 5x1 pattern strip for the tile width of the concrete
scenario. -/
def demoPattern5 : PixelGrid :=
  PixelGrid.mk 5 1 (List.replicate 20 9)

/-- Concrete 4x1 initial output canvas. -/
def demoCanvas4 : PixelGrid :=
  PixelGrid.mk 4 1 (List.replicate 16 0)

/-- Concrete 20x1 initial output canvas of the concrete scenario. -/
def demoCanvas20 : PixelGrid :=
  PixelGrid.mk 20 1 (List.replicate 80 7)

/-- Concrete 2x2 grid with pairwise distinct samples. -/
def demoGrid22 : PixelGrid :=
  PixelGrid.mk 2 2 [1, 2, 3, 4, 5, 6, 7, 8, 9, 10, 11, 12, 13, 14, 15, 16]

/-- Concrete 2x1 grid. -/
def demoGrid21 : PixelGrid :=
  PixelGrid.mk 2 1 [1, 2, 3, 4, 5, 6, 7, 8]

lemma PixelGrid.getAt_natCast (g : PixelGrid) (n : Nat) : g.getAt (n : Int) = g.data[n]? := by
  unfold PixelGrid.getAt
  rw [if_neg (by omega), Int.toNat_natCast]

lemma PixelGrid.get_nat (g : PixelGrid) (x y : Nat) :
    g.get (x : Int) (y : Int) =
      ⟨(g.data[(y * g.width + x) * 4]?).getD 0,
       (g.data[(y * g.width + x) * 4 + 1]?).getD 0,
       (g.data[(y * g.width + x) * 4 + 2]?).getD 0,
       (g.data[(y * g.width + x) * 4 + 3]?).getD 255⟩ := by
  have h0 : ((y : Int) * g.width + x) * 4 = ((y * g.width + x) * 4 : Nat) := by push_cast; ring
  have h1 : (((y * g.width + x) * 4 : Nat) : Int) + 1 = ((y * g.width + x) * 4 + 1 : Nat) := by
    push_cast; ring
  have h2 : (((y * g.width + x) * 4 : Nat) : Int) + 2 = ((y * g.width + x) * 4 + 2 : Nat) := by
    push_cast; ring
  have h3 : (((y * g.width + x) * 4 : Nat) : Int) + 3 = ((y * g.width + x) * 4 + 3 : Nat) := by
    push_cast; ring
  simp only [PixelGrid.get]
  rw [h0, h1, h2, h3, PixelGrid.getAt_natCast, PixelGrid.getAt_natCast, PixelGrid.getAt_natCast,
    PixelGrid.getAt_natCast]

lemma PixelGrid.setAt_natCast (g : PixelGrid) (n v : Nat) :
    g.setAt (n : Int) v = PixelGrid.mk g.width g.height (g.data.set n (min v 255)) := by
  unfold PixelGrid.setAt
  rw [if_neg (by omega), Int.toNat_natCast]

lemma PixelGrid.set_nat (g : PixelGrid) (x y : Nat) (p : Pixel) :
    g.set (x : Int) (y : Int) p =
      PixelGrid.mk g.width g.height
        ((((g.data.set ((y * g.width + x) * 4) (min p.r 255)).set
          ((y * g.width + x) * 4 + 1) (min p.g 255)).set
          ((y * g.width + x) * 4 + 2) (min p.b 255)).set
          ((y * g.width + x) * 4 + 3) (min p.a 255)) := by
  have h0 : ((y : Int) * g.width + x) * 4 = ((y * g.width + x) * 4 : Nat) := by push_cast; ring
  have h1 : (((y * g.width + x) * 4 : Nat) : Int) + 1 = ((y * g.width + x) * 4 + 1 : Nat) := by
    push_cast; ring
  have h2 : (((y * g.width + x) * 4 : Nat) : Int) + 2 = ((y * g.width + x) * 4 + 2 : Nat) := by
    push_cast; ring
  have h3 : (((y * g.width + x) * 4 : Nat) : Int) + 3 = ((y * g.width + x) * 4 + 3 : Nat) := by
    push_cast; ring
  simp only [PixelGrid.set]
  rw [h0, h1, h2, h3, PixelGrid.setAt_natCast, PixelGrid.setAt_natCast, PixelGrid.setAt_natCast,
    PixelGrid.setAt_natCast]

lemma setFour_getElem?_ne (l : List Nat) (n j w1 w2 w3 w4 : Nat)
    (h1 : n ≠ j) (h2 : n + 1 ≠ j) (h3 : n + 2 ≠ j) (h4 : n + 3 ≠ j) :
    ((((l.set n w1).set (n + 1) w2).set (n + 2) w3).set (n + 3) w4)[j]? = l[j]? := by
  rw [List.getElem?_set_ne h4, List.getElem?_set_ne h3, List.getElem?_set_ne h2,
    List.getElem?_set_ne h1]

lemma PixelGrid.get_set_ne (g : PixelGrid) (x y u v : Nat) (p : Pixel)
    (hne : y * g.width + x ≠ v * g.width + u) :
    (g.set (x : Int) (y : Int) p).get (u : Int) (v : Int) = g.get (u : Int) (v : Int) := by
  rw [PixelGrid.set_nat, PixelGrid.get_nat, PixelGrid.get_nat]
  dsimp only
  rw [setFour_getElem?_ne _ _ _ _ _ _ _ (by omega) (by omega) (by omega) (by omega),
    setFour_getElem?_ne _ _ _ _ _ _ _ (by omega) (by omega) (by omega) (by omega),
    setFour_getElem?_ne _ _ _ _ _ _ _ (by omega) (by omega) (by omega) (by omega),
    setFour_getElem?_ne _ _ _ _ _ _ _ (by omega) (by omega) (by omega) (by omega)]

lemma PixelGrid.get_set_self (g : PixelGrid) (x y : Nat) (p : Pixel)
    (hlt : (y * g.width + x) * 4 + 3 < g.data.length) :
    (g.set (x : Int) (y : Int) p).get (x : Int) (y : Int) = clampPixel p := by
  rw [PixelGrid.set_nat, PixelGrid.get_nat]
  dsimp only
  unfold clampPixel
  simp only [Pixel.mk.injEq]
  refine ⟨?_, ?_, ?_, ?_⟩
  · rw [List.getElem?_set_ne (by omega), List.getElem?_set_ne (by omega),
      List.getElem?_set_ne (by omega), List.getElem?_set_eq_of_lt _ (by omega)]
    rfl
  · rw [List.getElem?_set_ne (by omega), List.getElem?_set_ne (by omega),
      List.getElem?_set_eq_of_lt _ (by simp only [List.length_set]; omega)]
    rfl
  · rw [List.getElem?_set_ne (by omega),
      List.getElem?_set_eq_of_lt _ (by simp only [List.length_set]; omega)]
    rfl
  · rw [List.getElem?_set_eq_of_lt _ (by simp only [List.length_set]; omega)]
    rfl

lemma PixelGrid.byteSized_set (g : PixelGrid) (x y : Nat) (p : Pixel) (h : g.ByteSized) :
    (g.set (x : Int) (y : Int) p).ByteSized := by
  rw [PixelGrid.set_nat]
  intro v hv
  rcases List.mem_or_eq_of_mem_set hv with hv1 | rfl
  · rcases List.mem_or_eq_of_mem_set hv1 with hv2 | rfl
    · rcases List.mem_or_eq_of_mem_set hv2 with hv3 | rfl
      · rcases List.mem_or_eq_of_mem_set hv3 with hv4 | rfl
        · exact h v hv4
        · exact min_le_right _ _
      · exact min_le_right _ _
    · exact min_le_right _ _
  · exact min_le_right _ _

lemma PixelGrid.setAt_width (g : PixelGrid) (i : Int) (v : Nat) :
    (g.setAt i v).width = g.width := by
  unfold PixelGrid.setAt; split <;> rfl

lemma PixelGrid.setAt_height (g : PixelGrid) (i : Int) (v : Nat) :
    (g.setAt i v).height = g.height := by
  unfold PixelGrid.setAt; split <;> rfl

lemma PixelGrid.setAt_length (g : PixelGrid) (i : Int) (v : Nat) :
    (g.setAt i v).data.length = g.data.length := by
  unfold PixelGrid.setAt; split
  · rfl
  · simp only [List.length_set]

lemma PixelGrid.set_width (g : PixelGrid) (x y : Int) (p : Pixel) :
    (g.set x y p).width = g.width := by
  simp only [PixelGrid.set, PixelGrid.setAt_width]

lemma PixelGrid.set_height (g : PixelGrid) (x y : Int) (p : Pixel) :
    (g.set x y p).height = g.height := by
  simp only [PixelGrid.set, PixelGrid.setAt_height]

lemma PixelGrid.set_length (g : PixelGrid) (x y : Int) (p : Pixel) :
    (g.set x y p).data.length = g.data.length := by
  simp only [PixelGrid.set, PixelGrid.setAt_length]

lemma synthPixel_width (d p : PixelGrid) (m M : Nat) (s : ℚ) (o : PixelGrid) (x y : Nat) :
    (synthPixel d p m M s o x y).width = o.width := by
  unfold synthPixel; dsimp only; split <;> rw [PixelGrid.set_width]

lemma synthPixel_height (d p : PixelGrid) (m M : Nat) (s : ℚ) (o : PixelGrid) (x y : Nat) :
    (synthPixel d p m M s o x y).height = o.height := by
  unfold synthPixel; dsimp only; split <;> rw [PixelGrid.set_height]

lemma synthPixel_length (d p : PixelGrid) (m M : Nat) (s : ℚ) (o : PixelGrid) (x y : Nat) :
    (synthPixel d p m M s o x y).data.length = o.data.length := by
  unfold synthPixel; dsimp only; split <;> rw [PixelGrid.set_length]

lemma synthPixel_bytes (d p : PixelGrid) (m M : Nat) (s : ℚ) (o : PixelGrid) (x y : Nat)
    (h : o.ByteSized) : (synthPixel d p m M s o x y).ByteSized := by
  unfold synthPixel; dsimp only; split <;> exact PixelGrid.byteSized_set _ _ _ _ h

lemma foldl_grid_invariant {α : Type} (f : PixelGrid → α → PixelGrid) (P : PixelGrid → Prop)
    (hf : ∀ o a, P o → P (f o a)) :
    ∀ (l : List α) (o : PixelGrid), P o → P (l.foldl f o)
  | [], _, h => h
  | a :: l, o, h => foldl_grid_invariant f P hf l (f o a) (hf o a h)

lemma synthPixel_shape (d p : PixelGrid) (m M : Nat) (s : ℚ) (o : PixelGrid) (x y : Nat)
    (g : PixelGrid) (h : sameShape o g) : sameShape (synthPixel d p m M s o x y) g :=
  ⟨by rw [synthPixel_width]; exact h.1, by rw [synthPixel_height]; exact h.2.1,
   by rw [synthPixel_length]; exact h.2.2.1,
   fun hb => synthPixel_bytes d p m M s o x y (h.2.2.2 hb)⟩

lemma synthRow_shape (d p : PixelGrid) (m M : Nat) (s : ℚ) (W y : Nat) (o : PixelGrid)
    (g : PixelGrid) (h : sameShape o g) : sameShape (synthRow d p m M s W y o) g :=
  foldl_grid_invariant _ (sameShape · g)
    (fun o2 x h2 => synthPixel_shape d p m M s o2 x y g h2) (List.range W) o h

lemma synthState_shape (d p : PixelGrid) (m M : Nat) (s : ℚ) (o0 : PixelGrid) (u v : Nat) :
    sameShape (synthState d p m M s o0 u v) o0 := by
  unfold synthState
  apply foldl_grid_invariant _ (sameShape · o0)
    (fun o2 x h2 => synthPixel_shape d p m M s o2 x v o0 h2)
  apply foldl_grid_invariant _ (sameShape · o0)
    (fun o2 y h2 => synthRow_shape d p m M s o0.width y o2 o0 h2)
  exact ⟨rfl, rfl, rfl, id⟩

lemma rowsFold_shape (d p : PixelGrid) (m M : Nat) (s : ℚ) (W : Nat) (ys : List Nat)
    (o g : PixelGrid) (h : sameShape o g) :
    sameShape (ys.foldl (fun o2 y => synthRow d p m M s W y o2) o) g :=
  foldl_grid_invariant _ (sameShape · g)
    (fun o2 y h2 => synthRow_shape d p m M s W y o2 g h2) ys o h

lemma synthPixel_get_frame (d p : PixelGrid) (m M : Nat) (s : ℚ) (o : PixelGrid) (x y u v : Nat)
    (h : y * o.width + x ≠ v * o.width + u) :
    (synthPixel d p m M s o x y).get (u : Int) (v : Int) = o.get (u : Int) (v : Int) := by
  unfold synthPixel; dsimp only; split <;> exact PixelGrid.get_set_ne _ _ _ _ _ _ h

lemma cols_get_frame (d p : PixelGrid) (m M : Nat) (s : ℚ) (y u v W : Nat) :
    ∀ (xs : List Nat) (o : PixelGrid), o.width = W →
      (∀ x ∈ xs, y * W + x ≠ v * W + u) →
      ((xs.foldl (fun o2 x => synthPixel d p m M s o2 x y) o).get (u : Int) (v : Int))
        = o.get (u : Int) (v : Int) := by
  intro xs
  induction xs with
  | nil => intro o _ _; rfl
  | cons c xs ih =>
    intro o hw hxs
    rw [List.foldl_cons]
    rw [ih _ (by rw [synthPixel_width]; exact hw)
      (fun x hx => hxs x (List.mem_cons_of_mem _ hx))]
    exact synthPixel_get_frame d p m M s o c y u v
      (by rw [hw]; exact hxs c (List.mem_cons_self c xs))

lemma rows_get_frame (d p : PixelGrid) (m M : Nat) (s : ℚ) (W u v : Nat) :
    ∀ (ys : List Nat) (o : PixelGrid), o.width = W →
      (∀ y2 ∈ ys, ∀ x : Nat, y2 * W + x ≠ v * W + u) →
      ((ys.foldl (fun o2 y2 => synthRow d p m M s W y2 o2) o).get (u : Int) (v : Int))
        = o.get (u : Int) (v : Int) := by
  intro ys
  induction ys with
  | nil => intro o _ _; rfl
  | cons c ys ih =>
    intro o hw hys
    rw [List.foldl_cons]
    rw [ih _ ((synthRow_shape d p m M s W c o o ⟨rfl, rfl, rfl, id⟩).1.trans hw)
      (fun y2 hy2 => hys y2 (List.mem_cons_of_mem _ hy2))]
    unfold synthRow
    exact cols_get_frame d p m M s c u v W (List.range W) o hw
      (fun x _ => hys c (List.mem_cons_self c ys) x)

lemma foldl_range_split {α : Type} (f : α → Nat → α) (n k : Nat) (hk : k < n) (a : α) :
    (List.range n).foldl f a =
      (List.range' (k + 1) (n - (k + 1))).foldl f (f ((List.range k).foldl f a) k) := by
  have hsplit : List.range k ++ List.range' k (n - k) = List.range n := by
    have h := List.range'_append 0 k (n - k) 1
    simp only [Nat.one_mul, Nat.zero_add] at h
    rw [List.range_eq_range' k, h, show n - k + k = n by omega, ← List.range_eq_range' n]
  have hcons : List.range' k (n - k) = k :: List.range' (k + 1) (n - (k + 1)) := by
    rw [show n - k = (n - (k + 1)) + 1 by omega, List.range'_succ]
  rw [← hsplit, hcons, List.foldl_append, List.foldl_cons]

lemma generate_get_of_le (d p : PixelGrid) (m M : Nat) (s : ℚ) (o0 : PixelGrid)
    (u v u2 v2 : Nat) (hu : u < o0.width) (hv : v < o0.height)
    (hle : v2 * o0.width + u2 ≤ v * o0.width + u) :
    (generateAutostereogram d p m M s o0).get (u2 : Int) (v2 : Int)
      = (synthPixel d p m M s (synthState d p m M s o0 u v) u v).get (u2 : Int) (v2 : Int) := by
  unfold generateAutostereogram
  rw [foldl_range_split (fun o y => synthRow d p m M s o0.width y o) o0.height v hv]
  rw [rows_get_frame d p m M s o0.width u2 v2 (List.range' (v + 1) (o0.height - (v + 1))) _
    ((synthRow_shape d p m M s o0.width v _ o0
      (rowsFold_shape d p m M s o0.width (List.range v) o0 o0 ⟨rfl, rfl, rfl, id⟩)).1)
    ?hrows]
  case hrows =>
    intro y2 hy2 x
    have hy3 : v + 1 ≤ y2 := (List.mem_range'_1.mp hy2).1
    have h1 : (v + 1) * o0.width ≤ y2 * o0.width := Nat.mul_le_mul_right _ hy3
    have h2 : (v + 1) * o0.width = v * o0.width + o0.width := by ring
    omega
  show (synthRow d p m M s o0.width v
      ((List.range v).foldl (fun o y => synthRow d p m M s o0.width y o) o0)).get _ _ = _
  unfold synthRow
  rw [foldl_range_split (fun o2 x => synthPixel d p m M s o2 x v) o0.width u hu]
  rw [cols_get_frame d p m M s v u2 v2 o0.width (List.range' (u + 1) (o0.width - (u + 1))) _
    (by rw [synthPixel_width]; exact (synthState_shape d p m M s o0 u v).1)
    ?hcols]
  case hcols =>
    intro x hx
    have hx2 : u + 1 ≤ x := (List.mem_range'_1.mp hx).1
    omega
  rfl

lemma synthPixel_get_self (d p : PixelGrid) (m M : Nat) (s : ℚ) (o : PixelGrid) (x y : Nat)
    (hx : x < o.width) (hy : y < o.height) (hlen : o.data.length = o.width * o.height * 4) :
    (synthPixel d p m M s o x y).get (x : Int) (y : Int)
      = clampPixel
          (if x < m then p.get (jsRem ((x : Int) + offsetOf d m M s x y) (m : Int)) (y : Int)
           else o.get ((x : Int) + offsetOf d m M s x y - (m : Int)) (y : Int)) := by
  have hb : (y * o.width + x) * 4 + 3 < o.data.length := by
    have h1 : (y + 1) * o.width ≤ o.height * o.width := Nat.mul_le_mul_right _ hy
    have h2 : (y + 1) * o.width = y * o.width + o.width := by ring
    have h3 : o.height * o.width = o.width * o.height := by ring
    omega
  unfold synthPixel
  dsimp only
  split
  next hxm => rw [PixelGrid.get_set_self _ _ _ _ hb]
  next hxm => rw [PixelGrid.get_set_self _ _ _ _ hb]

lemma clampPixel_get (g : PixelGrid) (hb : g.ByteSized) (x y : Int) :
    clampPixel (g.get x y) = g.get x y := by
  have hc : ∀ (i : Int) (c : Nat), c ≤ 255 →
      min ((g.getAt i).getD c) 255 = (g.getAt i).getD c := by
    intro i c hcle
    cases hgi : g.getAt i with
    | none => simpa using Nat.min_eq_left hcle
    | some w =>
      have hw : w ∈ g.data := by
        unfold PixelGrid.getAt at hgi
        split at hgi
        · exact absurd hgi (by simp)
        · exact List.getElem?_mem hgi
      simpa using Nat.min_eq_left (hb w hw)
  unfold PixelGrid.get clampPixel
  dsimp only
  simp only [Pixel.mk.injEq]
  exact ⟨hc _ _ (by omega), hc _ _ (by omega), hc _ _ (by omega), hc _ _ (by omega)⟩

lemma generate_get_stable (d p : PixelGrid) (m M : Nat) (s : ℚ) (o0 : PixelGrid)
    (u v u2 v2 : Nat) (hu : u < o0.width) (hv : v < o0.height)
    (hlt : v2 * o0.width + u2 < v * o0.width + u) :
    (generateAutostereogram d p m M s o0).get (u2 : Int) (v2 : Int)
      = (synthState d p m M s o0 u v).get (u2 : Int) (v2 : Int) := by
  rw [generate_get_of_le d p m M s o0 u v u2 v2 hu hv (le_of_lt hlt)]
  exact synthPixel_get_frame d p m M s _ u v u2 v2
    (by rw [(synthState_shape d p m M s o0 u v).1]; omega)

lemma generate_seed (d p : PixelGrid) (m M : Nat) (s : ℚ) (o0 : PixelGrid) (x y : Nat)
    (hp : p.ByteSized) (hx : x < m) (hxW : x < o0.width) (hy : y < o0.height)
    (hlen : o0.data.length = o0.width * o0.height * 4) :
    (generateAutostereogram d p m M s o0).get (x : Int) (y : Int)
      = p.get (jsRem ((x : Int) + offsetOf d m M s x y) (m : Int)) (y : Int) := by
  rw [generate_get_of_le d p m M s o0 x y x y hxW hy (le_refl _)]
  have hσ := synthState_shape d p m M s o0 x y
  rw [synthPixel_get_self d p m M s _ x y (by rw [hσ.1]; exact hxW) (by rw [hσ.2.1]; exact hy)
      (by rw [hσ.2.2.1, hlen, hσ.1, hσ.2.1])]
  rw [if_pos hx, clampPixel_get p hp]

lemma generate_selfref (d p : PixelGrid) (m M : Nat) (s : ℚ) (o0 : PixelGrid) (x y : Nat)
    (h0 : o0.ByteSized) (hm : m ≤ x) (hxW : x < o0.width) (hy : y < o0.height)
    (hlen : o0.data.length = o0.width * o0.height * 4)
    (hoff0 : 0 ≤ offsetOf d m M s x y) (hoffm : offsetOf d m M s x y < (m : Int)) :
    (generateAutostereogram d p m M s o0).get (x : Int) (y : Int)
      = (generateAutostereogram d p m M s o0).get
          ((x : Int) + offsetOf d m M s x y - (m : Int)) (y : Int) := by
  have hxm : (x : Int) + offsetOf d m M s x y - (m : Int)
      = ((x + (offsetOf d m M s x y).toNat - m : Nat) : Int) := by omega
  rw [generate_get_of_le d p m M s o0 x y x y hxW hy (le_refl _)]
  have hσ := synthState_shape d p m M s o0 x y
  rw [synthPixel_get_self d p m M s _ x y (by rw [hσ.1]; exact hxW) (by rw [hσ.2.1]; exact hy)
      (by rw [hσ.2.2.1, hlen, hσ.1, hσ.2.1])]
  rw [if_neg (by omega), clampPixel_get _ (hσ.2.2.2 h0), hxm]
  exact (generate_get_stable d p m M s o0 x y (x + (offsetOf d m M s x y).toNat - m) y hxW hy
    (by omega)).symm

lemma offsetOf_nonneg (d : PixelGrid) (m M : Nat) (s : ℚ) (x y : Nat)
    (hmM : m ≤ M) (hs : 0 ≤ s) : 0 ≤ offsetOf d m M s x y := by
  unfold offsetOf
  apply Int.floor_nonneg.mpr
  apply mul_nonneg (mul_nonneg _ _) hs
  · positivity
  · rw [sub_nonneg]; exact_mod_cast hmM

lemma offsetOf_scale_mono (d : PixelGrid) (m M : Nat) (s1 s2 : ℚ) (x y : Nat)
    (hmM : m ≤ M) (hs : s1 ≤ s2) :
    offsetOf d m M s1 x y ≤ offsetOf d m M s2 x y := by
  unfold offsetOf
  apply Int.floor_le_floor
  apply mul_le_mul_of_nonneg_left hs
  apply mul_nonneg
  · positivity
  · rw [sub_nonneg]; exact_mod_cast hmM

lemma depth_red_zero (d : PixelGrid) (hd : ∀ b ∈ d.data, b = 0) (x y : Int) :
    (d.get x y).r = 0 := by
  have hall : ∀ i : Int, (d.getAt i).getD 0 = 0 := by
    intro i
    cases hgi : d.getAt i with
    | none => rfl
    | some w =>
      have hw : w ∈ d.data := by
        unfold PixelGrid.getAt at hgi
        split at hgi
        · exact absurd hgi (by simp)
        · exact List.getElem?_mem hgi
      simp [hd w hw]
  unfold PixelGrid.get
  dsimp only
  exact hall _

lemma offsetOf_depth_zero (d : PixelGrid) (m M : Nat) (s : ℚ) (x y : Nat)
    (hd : ∀ b ∈ d.data, b = 0) : offsetOf d m M s x y = 0 := by
  unfold offsetOf
  rw [depth_red_zero d hd]
  norm_num

lemma offsetOf_zero_range (d : PixelGrid) (s : ℚ) (x y : Nat) :
    offsetOf d 0 0 s x y = 0 := by
  unfold offsetOf
  norm_num

lemma jsRem_eq_emod (a b : Int) (ha : 0 ≤ a) (hb : 0 ≤ b) : jsRem a b = a % b := by
  unfold jsRem
  rw [if_pos ha, Int.natCast_mod, Int.natAbs_of_nonneg ha, Int.natAbs_of_nonneg hb]

lemma cell_bound (W H L x y : Nat) (hx : x < W) (hy : y < H) (hL : L = W * H * 4) :
    (y * W + x) * 4 + 3 < L := by
  have h1 : (y + 1) * W ≤ H * W := Nat.mul_le_mul_right _ hy
  have h2 : (y + 1) * W = y * W + W := by ring
  have h3 : H * W = W * H := by ring
  omega

lemma list_set_eq_self (l : List Nat) (n : Nat) (hn : n < l.length) :
    l.set n l[n] = l := by
  apply List.ext_getElem?
  intro i
  rcases eq_or_ne n i with rfl | hne
  · rw [List.getElem?_set_eq_of_lt _ hn, List.getElem?_eq_getElem hn]
  · rw [List.getElem?_set_ne hne]

lemma PixelGrid.set_get_id (g : PixelGrid) (x y : Nat) (hb : g.ByteSized)
    (hlt : (y * g.width + x) * 4 + 3 < g.data.length) :
    g.set (x : Int) (y : Int) (g.get (x : Int) (y : Int)) = g := by
  rw [PixelGrid.get_nat, PixelGrid.set_nat]
  dsimp only
  have hset : ∀ (n c : Nat), n < g.data.length → c ≤ 255 →
      g.data.set n (min ((g.data[n]?).getD c) 255) = g.data := by
    intro n c hn hc
    rw [List.getElem?_eq_getElem hn]
    simp only [Option.getD_some]
    rw [Nat.min_eq_left (hb _ (List.getElem_mem hn))]
    exact list_set_eq_self g.data n hn
  rw [hset _ _ (by omega) (by omega), hset _ _ (by omega) (by omega),
    hset _ _ (by omega) (by omega), hset _ _ (by omega) (by omega)]

lemma foldl_fixed {α : Type} (f : PixelGrid → α → PixelGrid) (o : PixelGrid)
    (l : List α) (h : ∀ a ∈ l, f o a = o) : l.foldl f o = o := by
  induction l with
  | nil => rfl
  | cons a l ih =>
    rw [List.foldl_cons, h a (List.mem_cons_self a l),
      ih (fun a2 ha2 => h a2 (List.mem_cons_of_mem _ ha2))]

lemma synthPixel_zero_id (d p : PixelGrid) (s : ℚ) (o : PixelGrid) (x y : Nat)
    (hb : o.ByteSized) (hx : x < o.width) (hy : y < o.height)
    (hlen : o.data.length = o.width * o.height * 4) :
    synthPixel d p 0 0 s o x y = o := by
  unfold synthPixel
  dsimp only
  rw [if_neg (by omega), offsetOf_zero_range d s x y]
  rw [show (x : Int) + 0 - ((0 : Nat) : Int) = (x : Int) by push_cast; ring]
  exact PixelGrid.set_get_id o x y hb (cell_bound o.width o.height o.data.length x y hx hy hlen)

/-- With `minDisparity = 0` the seed branch is unreachable and (with
`maxDisparity = 0` as well) every pixel copies itself, so the loop returns
the initial canvas unchanged: no rejection takes place. -/
lemma generate_zero_minDisparity (d p : PixelGrid) (s : ℚ) (o0 : PixelGrid)
    (hb : o0.ByteSized) (hlen : o0.data.length = o0.width * o0.height * 4) :
    generateAutostereogram d p 0 0 s o0 = o0 := by
  unfold generateAutostereogram
  apply foldl_fixed
  intro y hy
  unfold synthRow
  apply foldl_fixed
  intro x hx
  exact synthPixel_zero_id d p s o0 x y hb (List.mem_range.mp hx) (List.mem_range.mp hy) hlen

lemma generate_zero_depth_tiling (d p : PixelGrid) (m M : Nat) (s : ℚ) (o0 : PixelGrid)
    (hm : 0 < m) (hd : ∀ b ∈ d.data, b = 0) (hp : p.ByteSized) (h0 : o0.ByteSized)
    (hlen : o0.data.length = o0.width * o0.height * 4) :
    ∀ x, x < o0.width → ∀ y, y < o0.height →
      (generateAutostereogram d p m M s o0).get (x : Int) (y : Int)
        = p.get ((x % m : Nat) : Int) (y : Int) := by
  intro x
  induction x using Nat.strong_induction_on with
  | _ x ih =>
    intro hxW y hy
    by_cases hxm : x < m
    · rw [generate_seed d p m M s o0 x y hp hxm hxW hy hlen,
        offsetOf_depth_zero d m M s x y hd,
        show (x : Int) + 0 = (x : Int) by ring,
        jsRem_eq_emod _ _ (by omega) (by omega), ← Int.natCast_mod]
    · push_neg at hxm
      rw [generate_selfref d p m M s o0 x y h0 hxm hxW hy hlen
        (by rw [offsetOf_depth_zero d m M s x y hd])
        (by rw [offsetOf_depth_zero d m M s x y hd]; exact_mod_cast hm)]
      rw [offsetOf_depth_zero d m M s x y hd,
        show (x : Int) + 0 - (m : Int) = ((x - m : Nat) : Int) by omega,
        ih (x - m) (by omega) (by omega) y hy, ← Nat.mod_eq_sub_mod hxm]

lemma cell_index_inj (W x u y v2 : Nat) (hx : x < W) (hu : u < W)
    (h : y * W + x = v2 * W + u) : x = u ∧ y = v2 := by
  rcases Nat.lt_trichotomy y v2 with hlt | heq | hgt
  · exfalso
    have h1 : (y + 1) * W ≤ v2 * W := Nat.mul_le_mul_right _ hlt
    have h2 : (y + 1) * W = y * W + W := by ring
    omega
  · subst heq; omega
  · exfalso
    have h1 : (v2 + 1) * W ≤ y * W := Nat.mul_le_mul_right _ hgt
    have h2 : (v2 + 1) * W = v2 * W + W := by ring
    omega

lemma demo_offset_128 : offsetOf demoDepth128 5 7 1 5 0 = 1 := by
  have hr : (demoDepth128.get ((5 : Nat) : Int) ((0 : Nat) : Int)).r = 128 := by decide
  unfold offsetOf
  rw [hr]
  norm_num

/-- C1: for every row `y` and column `x < minDisparity` the synthesized
output pixel equals the pattern pixel at column
`(x + offset(x,y)) mod minDisparity`, where `offset` is the floored
depth-scaled disparity of the source. -/
theorem seed_correctness (d p o0 : PixelGrid) (m M : Nat) (s : ℚ) (x y : Nat)
    (hmM : m ≤ M) (hs : 0 ≤ s) (hp : p.ByteSized) (hx : x < m) (hxW : x < o0.width)
    (hy : y < o0.height) (hlen : o0.data.length = o0.width * o0.height * 4) :
    (generateAutostereogram d p m M s o0).get (x : Int) (y : Int)
      = p.get (((x : Int) + offsetOf d m M s x y) % (m : Int)) (y : Int) := by
  rw [generate_seed d p m M s o0 x y hp hx hxW hy hlen,
    jsRem_eq_emod _ _ (by have := offsetOf_nonneg d m M s x y hmM hs; omega) (by omega)]

/-- Witness for C1 at a concrete 4x1 instance with zero depth. -/
theorem seed_correctness_witness :
    demoPattern2.ByteSized ∧ (1 : Nat) < 2 ∧
    (generateAutostereogram demoDepth0 demoPattern2 2 3 1 demoCanvas4).get
        ((1 : Nat) : Int) ((0 : Nat) : Int)
      = demoPattern2.get ((((1 : Nat) : Int) + offsetOf demoDepth0 2 3 1 1 0) % ((2 : Nat) : Int))
          ((0 : Nat) : Int) :=
  ⟨by decide, by decide,
    seed_correctness demoDepth0 demoPattern2 demoCanvas4 2 3 1 1 0 (by norm_num) (by norm_num)
      (by decide) (by decide) (by decide) (by decide) (by decide)⟩

/-- C2: for `x ≥ minDisparity` (with the offset nonnegative and small
enough that the source pixel is already written) the synthesized pixel
equals the synthesized pixel `minDisparity - offset` columns to the left;
in the concrete scenario of the specification this gives
`O(5,0) = O(1,0)`. -/
theorem selfref_correctness (d p o0 : PixelGrid) (m M : Nat) (s : ℚ) (x y : Nat)
    (h0 : o0.ByteSized) (hm : m ≤ x) (hxW : x < o0.width) (hy : y < o0.height)
    (hlen : o0.data.length = o0.width * o0.height * 4)
    (hoff0 : 0 ≤ offsetOf d m M s x y) (hoffm : offsetOf d m M s x y < (m : Int)) :
    (generateAutostereogram d p m M s o0).get (x : Int) (y : Int)
      = (generateAutostereogram d p m M s o0).get
          ((x : Int) + offsetOf d m M s x y - (m : Int)) (y : Int) :=
  generate_selfref d p m M s o0 x y h0 hm hxW hy hlen hoff0 hoffm

/-- Witness for C2: the concrete scenario W=20, H=1, minDisparity=5,
maxDisparity=7, depth 128 everywhere, scale 1, where the offset is 1 and
`O(5,0) = O(1,0)`. -/
theorem selfref_correctness_witness :
    offsetOf demoDepth128 5 7 1 5 0 = 1 ∧
    (generateAutostereogram demoDepth128 demoPattern5 5 7 1 demoCanvas20).get 5 0
      = (generateAutostereogram demoDepth128 demoPattern5 5 7 1 demoCanvas20).get 1 0 := by
  refine ⟨demo_offset_128, ?_⟩
  have h := selfref_correctness demoDepth128 demoPattern5 demoCanvas20 5 7 1 5 0
    (by decide) (by decide) (by decide) (by decide) (by decide)
    (by rw [demo_offset_128]; norm_num) (by rw [demo_offset_128]; norm_num)
  rw [demo_offset_128] at h
  simpa using h

/-- C3: if every depth sample is 0 (so every offset is 0), every output
pixel equals the pattern tiled horizontally with period `minDisparity`. -/
theorem zero_disparity_tiling (d p o0 : PixelGrid) (m M : Nat) (s : ℚ) (x y : Nat)
    (hm : 0 < m) (hd : ∀ b ∈ d.data, b = 0) (hp : p.ByteSized) (h0 : o0.ByteSized)
    (hlen : o0.data.length = o0.width * o0.height * 4)
    (hx : x < o0.width) (hy : y < o0.height) :
    (generateAutostereogram d p m M s o0).get (x : Int) (y : Int)
      = p.get ((x % m : Nat) : Int) (y : Int) :=
  generate_zero_depth_tiling d p m M s o0 hm hd hp h0 hlen x hx y hy

/-- Witness for C3 at a concrete 4x1 instance: column 3 with period 2
reads pattern column 1. -/
theorem zero_disparity_tiling_witness :
    (∀ b ∈ demoDepth0.data, b = 0) ∧
    (generateAutostereogram demoDepth0 demoPattern2 2 3 1 demoCanvas4).get
        ((3 : Nat) : Int) ((0 : Nat) : Int)
      = demoPattern2.get (((3 % 2 : Nat) : Nat) : Int) ((0 : Nat) : Int) :=
  ⟨by decide,
    zero_disparity_tiling demoDepth0 demoPattern2 demoCanvas4 2 3 1 3 0 (by norm_num)
      (by decide) (by decide) (by decide) (by decide) (by decide) (by decide)⟩

/-- C4 counterexample to rejection: with `minDisparity = 0` (and the
matching derived `maxDisparity = 0`) the synthesizer still produces an
output grid, here the initial canvas unchanged, rather than failing. -/
theorem no_reject_counterexample :
    generateAutostereogram demoDepth0 demoPattern2 0 0 1 demoCanvas4 = demoCanvas4 :=
  generate_zero_minDisparity demoDepth0 demoPattern2 1 demoCanvas4 (by decide) (by decide)

/-- C4 amended: the source performs no `minDisparity` validation and the
loop is total; with `minDisparity = 0` the seed branch is unreachable and
(with `maxDisparity = 0`) every pixel copies itself, so synthesis returns
the initial canvas instead of rejecting. -/
theorem no_minDisparity_validation (d p : PixelGrid) (s : ℚ) (o0 : PixelGrid)
    (hb : o0.ByteSized) (hlen : o0.data.length = o0.width * o0.height * 4) :
    generateAutostereogram d p 0 0 s o0 = o0 :=
  generate_zero_minDisparity d p s o0 hb hlen

/-- Witness for the amended C4 at a concrete 20x1 instance. -/
theorem no_minDisparity_validation_witness :
    demoCanvas20.ByteSized ∧
    generateAutostereogram demoDepth128 demoPattern5 0 0 1 demoCanvas20 = demoCanvas20 :=
  ⟨by decide, no_minDisparity_validation demoDepth128 demoPattern5 1 demoCanvas20
    (by decide) (by decide)⟩

/-- C5 counterexample: `get(width, y)` with `y + 1 < height` returns
exactly the pixel stored at `(0, y + 1)` (and not, say, the clamped edge
pixel), so `get` neither rejects nor clamps out-of-range coordinates. -/
theorem oob_policy_counterexample :
    demoGrid22.get ((demoGrid22.width : Nat) : Int) ((0 : Nat) : Int)
        = demoGrid22.get ((0 : Nat) : Int) ((1 : Nat) : Int) ∧
    demoGrid22.get ((demoGrid22.width : Nat) : Int) ((0 : Nat) : Int) = ⟨9, 10, 11, 12⟩ ∧
    demoGrid22.get ((demoGrid22.width : Nat) : Int) ((0 : Nat) : Int)
        ≠ demoGrid22.get ((1 : Nat) : Int) ((0 : Nat) : Int) := by
  decide

/-- C5 amended: `get` and `set` do no bounds checking; the raw index
`(y*width+x)*4` makes in-buffer out-of-range coordinates alias other
pixels: for every grid, `get(width, y)` is literally the read of
`(0, y+1)`. -/
theorem oob_aliasing (g : PixelGrid) (y : Int) :
    g.get (g.width : Int) y = g.get 0 (y + 1) := by
  unfold PixelGrid.get
  dsimp only
  rw [show (y * (g.width : Int) + (g.width : Int)) * 4
    = ((y + 1) * (g.width : Int) + 0) * 4 by ring]

/-- C6: the synthesis loop is a pure function of its inputs: identical
depth, pattern, disparity parameters and initial canvas give identical
(byte-identical) outputs. -/
theorem synthesis_deterministic (d1 d2 p1 p2 : PixelGrid) (m1 m2 M1 M2 : Nat) (s1 s2 : ℚ)
    (o1 o2 : PixelGrid) (hd : d1 = d2) (hp : p1 = p2) (hm : m1 = m2) (hM : M1 = M2)
    (hs : s1 = s2) (ho : o1 = o2) :
    generateAutostereogram d1 p1 m1 M1 s1 o1 = generateAutostereogram d2 p2 m2 M2 s2 o2 ∧
    (generateAutostereogram d1 p1 m1 M1 s1 o1).data
      = (generateAutostereogram d2 p2 m2 M2 s2 o2).data := by
  subst hd hp hm hM hs ho
  exact ⟨rfl, rfl⟩

/-- Witness for C6 at a concrete instance. -/
theorem synthesis_deterministic_witness :
    generateAutostereogram demoDepth0 demoPattern2 2 3 1 demoCanvas4
      = generateAutostereogram demoDepth0 demoPattern2 2 3 1 demoCanvas4 :=
  (synthesis_deterministic demoDepth0 demoDepth0 demoPattern2 demoPattern2 2 2 3 3 1 1
    demoCanvas4 demoCanvas4 rfl rfl rfl rfl rfl rfl).1

/-- C7: with `minDisparity ≤ maxDisparity`, a positive depth sample, and
scales in the slider range, the per-pixel offset is monotone in
`disparityScale`, and so is its absolute value. -/
theorem offset_monotone_in_scale (d : PixelGrid) (m M : Nat) (s1 s2 : ℚ) (x y : Nat)
    (hdepth : 0 < (d.get (x : Int) (y : Int)).r) (hmM : m ≤ M)
    (hs1 : 1/10 ≤ s1) (hs12 : s1 ≤ s2) (hs2 : s2 ≤ 7/4) :
    offsetOf d m M s1 x y ≤ offsetOf d m M s2 x y ∧
    |offsetOf d m M s1 x y| ≤ |offsetOf d m M s2 x y| := by
  have h1 := offsetOf_scale_mono d m M s1 s2 x y hmM hs12
  have h2 := offsetOf_nonneg d m M s1 x y hmM (by linarith)
  have h3 := offsetOf_nonneg d m M s2 x y hmM (by linarith)
  exact ⟨h1, by rw [abs_of_nonneg h2, abs_of_nonneg h3]; exact h1⟩

/-- Witness for C7: depth 128, disparity range 2..4, scales 1/2 and 1. -/
theorem offset_monotone_in_scale_witness :
    0 < (demoDepth128.get ((0 : Nat) : Int) ((0 : Nat) : Int)).r ∧
    offsetOf demoDepth128 2 4 (1/2) 0 0 ≤ offsetOf demoDepth128 2 4 1 0 0 :=
  ⟨by decide,
    (offset_monotone_in_scale demoDepth128 2 4 (1/2) 1 0 0 (by decide) (by norm_num)
      (by norm_num) (by norm_num) (by norm_num)).1⟩

/-- C8 counterexample to queueing: a request arriving while a generation
is in flight returns immediately with the state unchanged; nothing records
it, so it is discarded rather than queued and later executed. -/
theorem regeneration_queueing_counterexample :
    requestStep ⟨true, true⟩ = (⟨true, true⟩, false) := by
  decide

/-- C8 amended: the `isProcessing` guard gives mutual exclusion, a
generation only starts when none is in flight; but a request that arrives
while one is in flight is dropped with no state change, not queued. -/
theorem regeneration_guard (s : AppSyncState) :
    ((requestStep s).2 = true → s.isProcessing = false) ∧
    (s.isProcessing = true → requestStep s = (s, false)) := by
  rcases s with ⟨hd2, hp2⟩
  cases hd2 <;> cases hp2 <;> exact (by decide)

/-- Witness for the amended C8 at the in-flight state. -/
theorem regeneration_guard_witness :
    (AppSyncState.mk true true).isProcessing = true ∧
    requestStep ⟨true, true⟩ = (⟨true, true⟩, false) :=
  ⟨rfl, (regeneration_guard ⟨true, true⟩).2 rfl⟩

/-- C9: for in-bounds coordinates and byte-range samples, `set` followed by
`get` at the same cell returns the written pixel, every other in-bounds
cell is unchanged, and width, height and buffer length are unchanged. -/
theorem set_postcondition_frame (g : PixelGrid) (x y : Nat) (pix : Pixel)
    (hx : x < g.width) (hy : y < g.height)
    (hlen : g.data.length = g.width * g.height * 4)
    (hr : pix.r ≤ 255) (hg : pix.g ≤ 255) (hb2 : pix.b ≤ 255) (ha : pix.a ≤ 255) :
    (g.set (x : Int) (y : Int) pix).get (x : Int) (y : Int) = pix ∧
    (∀ u v2 : Nat, u < g.width → v2 < g.height → (u, v2) ≠ (x, y) →
      (g.set (x : Int) (y : Int) pix).get (u : Int) (v2 : Int)
        = g.get (u : Int) (v2 : Int)) ∧
    (g.set (x : Int) (y : Int) pix).width = g.width ∧
    (g.set (x : Int) (y : Int) pix).height = g.height ∧
    (g.set (x : Int) (y : Int) pix).data.length = g.width * g.height * 4 := by
  refine ⟨?_, ?_, PixelGrid.set_width g _ _ pix, PixelGrid.set_height g _ _ pix,
    by rw [PixelGrid.set_length]; exact hlen⟩
  · rw [PixelGrid.get_set_self _ _ _ _ (cell_bound g.width g.height g.data.length x y hx hy hlen)]
    unfold clampPixel
    rw [Nat.min_eq_left hr, Nat.min_eq_left hg, Nat.min_eq_left hb2, Nat.min_eq_left ha]
  · intro u v2 hu hv2 hne
    apply PixelGrid.get_set_ne
    intro hcell
    obtain ⟨h1, h2⟩ := cell_index_inj g.width x u y v2 hx hu hcell
    exact hne (by rw [h1, h2])

/-- Witness for C9 on a concrete 2x2 grid: writing cell (1,0) returns the
written pixel there and leaves cell (0,1) unchanged. -/
theorem set_postcondition_frame_witness :
    (1 : Nat) < demoGrid22.width ∧
    ((demoGrid22.set ((1 : Nat) : Int) ((0 : Nat) : Int) ⟨100, 101, 102, 103⟩).get
        ((1 : Nat) : Int) ((0 : Nat) : Int) = ⟨100, 101, 102, 103⟩) ∧
    (demoGrid22.set ((1 : Nat) : Int) ((0 : Nat) : Int) ⟨100, 101, 102, 103⟩).get
        ((0 : Nat) : Int) ((1 : Nat) : Int)
      = demoGrid22.get ((0 : Nat) : Int) ((1 : Nat) : Int) := by
  have h := set_postcondition_frame demoGrid22 1 0 ⟨100, 101, 102, 103⟩ (by decide) (by decide)
    (by decide) (by decide) (by decide) (by decide) (by decide)
  exact ⟨by decide, h.1, h.2.1 0 1 (by decide) (by decide) (by decide)⟩

/-- C10: `get` is total; whenever the computed buffer index lies at or past
the end of the buffer (in particular for any row at or below the grid
height), it returns the opaque-black pixel (0, 0, 0, 255). -/
theorem get_total_oob_black (g : PixelGrid) (x y : Nat)
    (h : g.data.length ≤ (y * g.width + x) * 4) :
    g.get (x : Int) (y : Int) = opaqueBlack := by
  rw [PixelGrid.get_nat]
  rw [List.getElem?_eq_none (by omega), List.getElem?_eq_none (by omega),
    List.getElem?_eq_none (by omega), List.getElem?_eq_none (by omega)]
  rfl

/-- Witness for C10: reading row 1 of a 2x1 grid yields opaque black. -/
theorem get_total_oob_black_witness :
    demoGrid21.data.length ≤ (1 * demoGrid21.width + 0) * 4 ∧
    demoGrid21.get ((0 : Nat) : Int) ((1 : Nat) : Int) = opaqueBlack :=
  ⟨by decide, get_total_oob_black demoGrid21 0 1 (by decide)⟩
